import Mathlib

/-!
Shallow embedding of the papertty repository (src/papertty/papertty.py and
src/papertty/drivers/driver.py).

The driver talks to the panel through the external `epdconfig` collaborator
(GPIO writes, SPI byte transfers, delays, busy polling).  We model that bus
boundary as a trace of events: every driver method is embedded as the list of
bus events it emits, in order.  `ReadBusy` is a polling loop whose iteration
count depends on the hardware busy line; it is abstracted as the single
blocking event `Ev.busyWait`.

Images (PIL `Image` objects) are embedded as a structure carrying a width, a
height and a pixel function; the mode-'1' images used throughout the program
hold pixel values 0 (black) and 255 (white).
-/

/-- One event on the command/data bus (the `epdconfig` boundary). -/
inductive Ev where
  /-- `send_command`: one byte transmitted with DC low. -/
  | cmd (b : Nat)
  /-- `send_data`: one byte transmitted with DC high. -/
  | data (b : Nat)
  /-- `send_data2`: a bulk byte list transmitted with DC high. -/
  | dataBulk (bs : List Nat)
  /-- `epdconfig.digital_write(pin, v)`. -/
  | pinWrite (pin : Nat) (v : Nat)
  /-- `epdconfig.delay_ms(ms)`. -/
  | delayMs (ms : Nat)
  /-- `ReadBusy`: block until the busy pin reads idle. -/
  | busyWait
  /-- `epdconfig.module_exit()`: release the transport. -/
  | moduleExit
deriving DecidableEq

/-- A PIL image: width, height, and the pixel value at each (x, y). -/
structure Img where
  w : Nat
  h : Nat
  px : Nat → Nat → Nat

/-- PIL `Image.new('1', (w, h), fill)`. -/
def Image.new (w h fill : Nat) : Img := ⟨w, h, fun _ _ => fill⟩

/-- PIL in-place drawing (`ImageDraw` text / line / rectangle): each painted
pixel is overwritten, the rest keep their value; the size never changes. -/
def Img.drawOn (img : Img) (paint : Nat → Nat → Option Nat) : Img :=
  ⟨img.w, img.h, fun x y => (paint x y).getD (img.px x y)⟩

/-- PIL `img.rotate(90, expand=True)`: counter-clockwise quarter turn, the
output size is the input size with the axes swapped. -/
def Img.rotate90 (img : Img) : Img :=
  ⟨img.h, img.w, fun x y => img.px (img.w - 1 - y) x⟩

/-- PIL `img.transpose(Image.FLIP_LEFT_RIGHT)`. -/
def Img.flipLR (img : Img) : Img :=
  ⟨img.w, img.h, fun x y => img.px (img.w - 1 - x) y⟩

/-- PIL `img.transpose(Image.FLIP_TOP_BOTTOM)`. -/
def Img.flipTB (img : Img) : Img :=
  ⟨img.w, img.h, fun x y => img.px x (img.h - 1 - y)⟩

/-- PIL `ImageChops.logical_xor(a, b)` on two mode-'1' images of equal size. -/
def Img.logical_xor (a b : Img) : Img :=
  ⟨a.w, a.h, fun x y => if (a.px x y ≠ 0) ≠ (b.px x y ≠ 0) then 255 else 0⟩

/-- PIL `img.crop((left, upper, right, lower))`. -/
def Img.crop (img : Img) (bb : Nat × Nat × Nat × Nat) : Img :=
  ⟨bb.2.2.1 - bb.1, bb.2.2.2 - bb.2.1, fun x y => img.px (bb.1 + x) (bb.2.1 + y)⟩

namespace Driver

/-- `EPD_WIDTH` (driver.py line 6). -/
def EPD_WIDTH : Nat := 128

/-- `EPD_HEIGHT` (driver.py line 7). -/
def EPD_HEIGHT : Nat := 250

/-- Reset pin id (from the external `epdconfig` collaborator). -/
def RST_PIN : Nat := 17

/-- Data/command pin id (external `epdconfig`). -/
def DC_PIN : Nat := 25

/-- Chip-select pin id (external `epdconfig`). -/
def CS_PIN : Nat := 8

/-- Busy pin id (external `epdconfig`). -/
def BUSY_PIN : Nat := 24

/-- `epdconfig.digital_write(pin, v)` as a trace. -/
def digital_write (pin v : Nat) : List Ev := [Ev.pinWrite pin v]

/-- `epdconfig.delay_ms(ms)` as a trace. -/
def delay_ms (ms : Nat) : List Ev := [Ev.delayMs ms]

/-- `Driver.lut_partial_update` (driver.py lines 24-44): the Partial waveform
table, 153 LUT bytes followed by 6 configuration bytes. -/
def lut_partial_update : List Nat := [
  0x0,0x40,0x0,0x0,0x0,0x0,0x0,0x0,0x0,0x0,0x0,0x0,
  0x80,0x80,0x0,0x0,0x0,0x0,0x0,0x0,0x0,0x0,0x0,0x0,
  0x40,0x40,0x0,0x0,0x0,0x0,0x0,0x0,0x0,0x0,0x0,0x0,
  0x0,0x80,0x0,0x0,0x0,0x0,0x0,0x0,0x0,0x0,0x0,0x0,
  0x0,0x0,0x0,0x0,0x0,0x0,0x0,0x0,0x0,0x0,0x0,0x0,
  0x14,0x0,0x0,0x0,0x0,0x0,0x0,
  0x1,0x0,0x0,0x0,0x0,0x0,0x0,
  0x1,0x0,0x0,0x0,0x0,0x0,0x0,
  0x0,0x0,0x0,0x0,0x0,0x0,0x0,
  0x0,0x0,0x0,0x0,0x0,0x0,0x0,
  0x0,0x0,0x0,0x0,0x0,0x0,0x0,
  0x0,0x0,0x0,0x0,0x0,0x0,0x0,
  0x0,0x0,0x0,0x0,0x0,0x0,0x0,
  0x0,0x0,0x0,0x0,0x0,0x0,0x0,
  0x0,0x0,0x0,0x0,0x0,0x0,0x0,
  0x0,0x0,0x0,0x0,0x0,0x0,0x0,
  0x0,0x0,0x0,0x0,0x0,0x0,0x0,
  0x22,0x22,0x22,0x22,0x22,0x22,0x0,0x0,0x0,
  0x22,0x17,0x41,0x00,0x32,0x36]

/-- `Driver.lut_full_update` (driver.py lines 46-66): the Full waveform
table, 153 LUT bytes followed by 6 configuration bytes. -/
def lut_full_update : List Nat := [
  0x80,0x4A,0x40,0x0,0x0,0x0,0x0,0x0,0x0,0x0,0x0,0x0,
  0x40,0x4A,0x80,0x0,0x0,0x0,0x0,0x0,0x0,0x0,0x0,0x0,
  0x80,0x4A,0x40,0x0,0x0,0x0,0x0,0x0,0x0,0x0,0x0,0x0,
  0x40,0x4A,0x80,0x0,0x0,0x0,0x0,0x0,0x0,0x0,0x0,0x0,
  0x0,0x0,0x0,0x0,0x0,0x0,0x0,0x0,0x0,0x0,0x0,0x0,
  0xF,0x0,0x0,0x0,0x0,0x0,0x0,
  0xF,0x0,0x0,0xF,0x0,0x0,0x2,
  0xF,0x0,0x0,0x0,0x0,0x0,0x0,
  0x1,0x0,0x0,0x0,0x0,0x0,0x0,
  0x0,0x0,0x0,0x0,0x0,0x0,0x0,
  0x0,0x0,0x0,0x0,0x0,0x0,0x0,
  0x0,0x0,0x0,0x0,0x0,0x0,0x0,
  0x0,0x0,0x0,0x0,0x0,0x0,0x0,
  0x0,0x0,0x0,0x0,0x0,0x0,0x0,
  0x0,0x0,0x0,0x0,0x0,0x0,0x0,
  0x0,0x0,0x0,0x0,0x0,0x0,0x0,
  0x0,0x0,0x0,0x0,0x0,0x0,0x0,
  0x22,0x22,0x22,0x22,0x22,0x22,0x0,0x0,0x0,
  0x22,0x17,0x41,0x0,0x32,0x36]

/-- `Driver.reset` (lines 72-78): the full hardware reset pulse train. -/
def reset : List Ev :=
  digital_write RST_PIN 1 ++ delay_ms 20
  ++ digital_write RST_PIN 0 ++ delay_ms 2
  ++ digital_write RST_PIN 1 ++ delay_ms 20

/-- `Driver.send_command` (lines 85-89): one command byte on the bus. -/
def send_command (command : Nat) : List Ev := [Ev.cmd command]

/-- `Driver.send_data` (lines 96-100): one data byte on the bus. -/
def send_data (d : Nat) : List Ev := [Ev.data d]

/-- `Driver.send_data2` (lines 103-107): a bulk data transfer on the bus. -/
def send_data2 (d : List Nat) : List Ev := [Ev.dataBulk d]

/-- `Driver.ReadBusy` (lines 113-117): block until the busy pin goes low. -/
def ReadBusy : List Ev := [Ev.busyWait]

/-- `Driver.TurnOnDisplay` (lines 123-127): full-quality update activation. -/
def TurnOnDisplay : List Ev :=
  send_command 0x22 ++ send_data 0xC7 ++ send_command 0x20 ++ ReadBusy

/-- `Driver.TurnOnDisplayPart` (lines 133-137): quality-partial activation. -/
def TurnOnDisplayPart : List Ev :=
  send_command 0x22 ++ send_data 0x0F ++ send_command 0x20 ++ ReadBusy

/-- `Driver.Lut` (lines 144-148): write the 153 LUT bytes to register 0x32. -/
def Lut (lut : List Nat) : List Ev :=
  send_command 0x32
  ++ (List.range 153).flatMap (fun i => send_data (lut.getD i 0))
  ++ ReadBusy

/-- `Driver.SetLut` (lines 155-166): write the LUT plus the trailing
voltage/frame-rate configuration bytes (positions 153-158). -/
def SetLut (lut : List Nat) : List Ev :=
  Lut lut
  ++ send_command 0x3F ++ send_data (lut.getD 153 0)
  ++ send_command 0x03 ++ send_data (lut.getD 154 0)
  ++ send_command 0x04 ++ send_data (lut.getD 155 0)
  ++ send_data (lut.getD 156 0) ++ send_data (lut.getD 157 0)
  ++ send_command 0x2C ++ send_data (lut.getD 158 0)

/-- `Driver.SetWindow` (lines 176-186).  The X bytes are the inputs shifted
right 3 bits then masked to 8 bits; the Y bounds are 16-bit little-endian. -/
def SetWindow (x_start y_start x_end y_end : Nat) : List Ev :=
  send_command 0x44
  ++ send_data ((x_start >>> 3) % 256) ++ send_data ((x_end >>> 3) % 256)
  ++ send_command 0x45
  ++ send_data (y_start % 256) ++ send_data ((y_start >>> 8) % 256)
  ++ send_data (y_end % 256) ++ send_data ((y_end >>> 8) % 256)

/-- `Driver.SetCursor` (lines 194-201).  The X byte is the raw input masked
to 8 bits (`x & 0xFF`), with no shift. -/
def SetCursor (x y : Nat) : List Ev :=
  send_command 0x4E ++ send_data (x % 256)
  ++ send_command 0x4F ++ send_data (y % 256) ++ send_data ((y >>> 8) % 256)

/-- `Driver.init` (lines 207-241).  `moduleInitRet` is the value returned by
the external `epdconfig.module_init()`; a nonzero value makes `init` return -1
before any bus traffic.  The result pairs the returned status with the bus
trace. -/
def init (moduleInitRet : Int) : Int × List Ev :=
  if moduleInitRet ≠ 0 then (-1, [])
  else
    (0,
      reset
      ++ ReadBusy
      ++ send_command 0x12
      ++ ReadBusy
      ++ send_command 0x01 ++ send_data 0xF9 ++ send_data 0x00 ++ send_data 0x00
      ++ send_command 0x11 ++ send_data 0x03
      ++ SetWindow 0 0 (EPD_WIDTH - 1) (EPD_HEIGHT - 1)
      ++ SetCursor 0 0
      ++ send_command 0x3C ++ send_data 0x05
      ++ send_command 0x21 ++ send_data 0x00 ++ send_data 0x80
      ++ send_command 0x18 ++ send_data 0x80
      ++ ReadBusy
      ++ SetLut lut_full_update)

/-- PIL `img.tobytes('raw')` for a mode-'1' image: one byte row, each row
padded to a whole number of bytes, MSB first, bit set where the pixel is
nonzero (`convert('1')` is modelled as the nonzero test on the already
bilevel images this program uses). -/
def packBits (img : Img) : List Nat :=
  (List.range img.h).flatMap (fun j =>
    (List.range ((img.w + 7) / 8)).map (fun byteIdx =>
      (List.range 8).foldl (fun acc bit =>
        if byteIdx * 8 + bit < img.w ∧ img.px (byteIdx * 8 + bit) j ≠ 0 then
          acc ||| (0x80 >>> bit)
        else acc) 0))

/-- `Driver.getbuffer` (lines 248-262): pack a matching image, rotate then
pack a 90°-rotation match, and fall back to a blank buffer of
`int(width/8) * height` bytes of 0x00 for any other dimensions. -/
def getbuffer (image : Img) : List Nat :=
  if image.w = EPD_WIDTH ∧ image.h = EPD_HEIGHT then
    packBits image
  else if image.w = EPD_HEIGHT ∧ image.h = EPD_WIDTH then
    packBits image.rotate90
  else
    List.replicate ((EPD_WIDTH / 8) * EPD_HEIGHT) 0x00

/-- `Driver.display` (lines 269-279). -/
def display (image : List Nat) : List Ev :=
  let linewidth := if EPD_WIDTH % 8 = 0 then EPD_WIDTH / 8 else EPD_WIDTH / 8 + 1
  send_command 0x24
  ++ (List.range EPD_HEIGHT).flatMap (fun j =>
      (List.range linewidth).flatMap (fun i =>
        send_data (image.getD (i + j * linewidth) 0)))
  ++ TurnOnDisplay

/-- `Driver.displayPartial` (lines 286-320): 1 ms reset-pin toggle, Partial
LUT, partial window parameters (0x37), partial border waveform, a 0xC0
activation, full-panel window/cursor, bulk RAM write, then the
quality-partial activation. -/
def displayPartial (image : List Nat) : List Ev :=
  digital_write RST_PIN 0 ++ delay_ms 1 ++ digital_write RST_PIN 1
  ++ SetLut lut_partial_update
  ++ send_command 0x37
  ++ send_data 0x00 ++ send_data 0x00 ++ send_data 0x00 ++ send_data 0x00
  ++ send_data 0x00 ++ send_data 0x40 ++ send_data 0x00 ++ send_data 0x00
  ++ send_data 0x00 ++ send_data 0x00
  ++ send_command 0x3C ++ send_data 0x80
  ++ send_command 0x22 ++ send_data 0xC0
  ++ send_command 0x20 ++ ReadBusy
  ++ SetWindow 0 0 (EPD_WIDTH - 1) (EPD_HEIGHT - 1)
  ++ SetCursor 0 0
  ++ send_command 0x24
  ++ send_data2 image
  ++ TurnOnDisplayPart

/-- `Driver.displayPartBaseImage` (lines 327-333). -/
def displayPartBaseImage (image : List Nat) : List Ev :=
  send_command 0x24 ++ send_data2 image
  ++ send_command 0x26 ++ send_data2 image
  ++ TurnOnDisplay

/-- `Driver.Clear` (lines 339-348): a full-panel single-colour RAM write
followed by the full-quality activation. -/
def Clear (color : Nat) : List Ev :=
  let linewidth := if EPD_WIDTH % 8 = 0 then EPD_WIDTH / 8 else EPD_WIDTH / 8 + 1
  send_command 0x24
  ++ send_data2 (List.replicate (EPD_HEIGHT * linewidth) color)
  ++ TurnOnDisplay

/-- `Driver.sleep` (lines 354-359): deep-sleep command, confirmation byte,
settle delay, transport release. -/
def sleep : List Ev :=
  send_command 0x10 ++ send_data 0x01 ++ delay_ms 2000 ++ [Ev.moduleExit]

/-- Python `v & 0xFF` on a possibly negative int. -/
def pyByte (v : Int) : Nat := (v % 256).toNat

/-- `Driver.set_memory_area` (lines 361-370): like `SetWindow` but reached
from `set_frame_memory`, whose clipped ends are Python ints. -/
def set_memory_area (x_start y_start x_end y_end : Int) : List Ev :=
  send_command 0x44
  ++ send_data (pyByte (Int.fdiv x_start 8)) ++ send_data (pyByte (Int.fdiv x_end 8))
  ++ send_command 0x45
  ++ send_data (pyByte y_start) ++ send_data (pyByte (Int.fdiv y_start 256))
  ++ send_data (pyByte y_end) ++ send_data (pyByte (Int.fdiv y_end 256))

/-- `Driver.set_memory_pointer` (lines 372-379).  The X byte is the input
shifted right 3 bits then masked to 8 bits. -/
def set_memory_pointer (x y : Int) : List Ev :=
  send_command 0x4E ++ send_data (pyByte (Int.fdiv x 8))
  ++ send_command 0x4F
  ++ send_data (pyByte y) ++ send_data (pyByte (Int.fdiv y 256))
  ++ ReadBusy

/-- The pixel-streaming double loop of `set_frame_memory` (lines 409-418):
the byte accumulator is threaded through both loops and flushed at every
eighth column. -/
def frameStream (img : Img) (xCount yCount : Nat) : List Ev :=
  (((List.range yCount).flatMap (fun j => (List.range xCount).map (fun i => (j, i)))).foldl
      (fun acc ji =>
        let b := if img.px ji.2 ji.1 ≠ 0 then acc.1 ||| (0x80 >>> (ji.2 % 8)) else acc.1
        if ji.2 % 8 = 7 then (0, acc.2 ++ send_data b) else (b, acc.2))
      ((0 : Nat), ([] : List Ev))).2

/-- `Driver.set_frame_memory` (lines 388-418): clip x to a multiple of 8 and
the region to the panel, program window and pointer, then stream the pixel
bytes to the RAM-write command.  A missing image or negative origin is a
no-op.  (`x & 0xF8` on a non-negative int both drops the low 3 bits and masks
to 8 bits.) -/
def set_frame_memory (image : Option Img) (x y : Int) : List Ev :=
  match image with
  | none => []
  | some img =>
    if x < 0 ∨ y < 0 then []
    else
      let xm : Int := ((x.toNat &&& 0xF8 : Nat) : Int)
      let iw : Int := ((img.w &&& 0xF8 : Nat) : Int)
      let x_end : Int :=
        if xm + iw ≥ (EPD_WIDTH : Int) then (EPD_WIDTH : Int) - 1 else xm + iw - 1
      let y_end : Int :=
        if y + (img.h : Int) ≥ (EPD_HEIGHT : Int) then (EPD_HEIGHT : Int) - 1
        else y + (img.h : Int) - 1
      set_memory_area xm y x_end y_end
      ++ set_memory_pointer xm y
      ++ send_command 0x24
      ++ frameStream img ((x_end - xm + 1).toNat) ((y_end - y + 1).toNat)

/-- `Driver.display_frame` (lines 420-426). -/
def display_frame : List Ev :=
  send_command 0x22 ++ send_data 0xC4
  ++ send_command 0x20 ++ send_command 0xFF
  ++ ReadBusy

/-- `Driver.draw` (lines 428-435).  `partialRefreshFlag` models the
`self.partial_refresh` attribute (False throughout this repository). -/
def draw (partialRefreshFlag : Bool) (x y : Int) (image : Option Img) : List Ev :=
  set_frame_memory image x y ++ display_frame
  ++ (if partialRefreshFlag then set_frame_memory image x y ++ display_frame else [])

end Driver

namespace PaperTTY

/-- Python `range(start, stop, step)` for a non-negative step (`range` with a
zero step raises in Python; here it yields the empty list). -/
def pyRange (start stop step : Nat) : List Nat :=
  if _h : 0 < step ∧ start < stop then start :: pyRange (start + step) stop step
  else []
termination_by stop - start
decreasing_by omega

/-- `PaperTTY.band` (papertty.py lines 83-87): stretch a bounding box's X
coordinates outward to multiples of 8; `None` passes through. -/
def band (bb : Option (Nat × Nat × Nat × Nat)) : Option (Nat × Nat × Nat × Nat) :=
  bb.map (fun r => (r.1 / 8 * 8, r.2.1, (r.2.2.1 + 7) / 8 * 8, r.2.2.2))

/-- `PaperTTY.split` (lines 89-92): `[s[b:b+n] for b in range(0, len(s), n)]`. -/
def split {α : Type} (s : List α) (n : Nat) : List (List α) :=
  (pyRange 0 s.length n).map (fun b => (s.drop b).take n)

/-- The coordinates at which two images differ: the nonzero pixels of
`ImageChops.difference(img1, img2)` (pointwise absolute difference), scanned
over the common grid. -/
def diffPts (img1 img2 : Img) : List (Nat × Nat) :=
  (List.range img1.w).flatMap (fun x =>
    (List.range img1.h).filterMap (fun y =>
      if img1.px x y = img2.px x y then none else some (x, y)))

/-- `PaperTTY.img_diff` (lines 94-97): `difference(img1, img2).getbbox()`.
PIL's `getbbox` returns `(left, upper, right, lower)` with exclusive right
and lower bounds, or `None` when no pixel is nonzero. -/
def img_diff (img1 img2 : Img) : Option (Nat × Nat × Nat × Nat) :=
  match diffPts img1 img2 with
  | [] => none
  | p :: rest =>
    some ((p :: rest).foldl (fun m q => min m q.1) p.1,
          (p :: rest).foldl (fun m q => min m q.2) p.2,
          (p :: rest).foldl (fun m q => max m q.1) p.1 + 1,
          (p :: rest).foldl (fun m q => max m q.2) p.2 + 1)

/-- The draw dispatch at the end of `PaperTTY.showtext` (lines 274-284): in
partial mode with a previous image, band the diff bounding box and draw only
the cropped region (nothing at all when there is no difference); otherwise
draw the full image at the origin.  `Driver().partial_refresh` is False. -/
def showtextDrawTrace (partialFlag : Bool) (image : Img) (oldimage : Option Img) :
    List Ev :=
  match oldimage, partialFlag with
  | some old, true =>
    match band (img_diff image old) with
    | some bb => Driver.draw false (bb.1 : Int) (bb.2.1 : Int) (some (image.crop bb))
    | none => []
  | some _, false => Driver.draw false 0 0 (some image)
  | none, _ => Driver.draw false 0 0 (some image)

/-- The cursor style held in `self.cursor`: 'block', 'default', or a pixel
offset number (papertty.py lines 213-240, 262-265). -/
inductive CursorStyle where
  | block
  | lineDefault
  | lineOffset (off : Nat)

/-- `PaperTTY.draw_line_cursor` (lines 213-228) as a paint overlay: a
horizontal black line of width `font_width - 1` at the bottom of the glyph
cell, raised by the configured offset. -/
def lineCursorPaint (fontW fontH : Nat) (cur : Nat × Nat) (offset black : Nat)
    (x y : Nat) : Option Nat :=
  if y = (cur.2 + 1) * fontH - 1 - offset ∧
      cur.1 * fontW ≤ x ∧ x ≤ cur.1 * fontW + (fontW - 1) then
    some black
  else none

/-- `PaperTTY.draw_block_cursor` (lines 230-240): build an all-black mask the
size of the image, paint a white glyph-cell rectangle on it, and XOR it into
the image. -/
def draw_block_cursor (fontW fontH : Nat) (cur : Nat × Nat) (black white : Nat)
    (image : Img) : Img :=
  let mask := Image.new image.w image.h black
  let mask := mask.drawOn (fun x y =>
    if cur.1 * fontW ≤ x ∧ x ≤ (cur.1 + 1) * fontW ∧
        cur.2 * fontH ≤ y ∧ y ≤ (cur.2 + 1) * fontH then
      some white
    else none)
  image.logical_xor mask

/-- The image pipeline of `PaperTTY.showtext` (lines 242-273): a fresh canvas
whose axes follow the orientation, the text painted on it (`draw.text` per
line, abstracted as the overlay `textPaint`), the optional cursor overlay,
the rotation for landscape, and the optional flips.  The returned image is
the bitmap `showtext` hands to the driver and returns. -/
def showtextImage (white black fontW fontH : Nat)
    (style : Option CursorStyle) (cursor : Option (Nat × Nat))
    (textPaint : Nat → Nat → Option Nat)
    (portraitFlag flipx flipy : Bool) : Img :=
  let image := Image.new
    (if portraitFlag then Driver.EPD_WIDTH else Driver.EPD_HEIGHT)
    (if portraitFlag then Driver.EPD_HEIGHT else Driver.EPD_WIDTH)
    white
  let image := image.drawOn textPaint
  let image :=
    match cursor, style with
    | some c, some CursorStyle.block => draw_block_cursor fontW fontH c black white image
    | some c, some CursorStyle.lineDefault =>
        image.drawOn (lineCursorPaint fontW fontH c 0 black)
    | some c, some (CursorStyle.lineOffset k) =>
        image.drawOn (lineCursorPaint fontW fontH c k black)
    | _, _ => image
  let image := if !portraitFlag then image.rotate90 else image
  let image := if flipx then image.flipLR else image
  let image := if flipy then image.flipTB else image
  image

end PaperTTY

/-- Observer: the data bytes that directly follow a command event, including
the contents of bulk transfers; any other event ends the payload. -/
def takeData : List Ev → List Nat
  | Ev.data b :: rest => b :: takeData rest
  | Ev.dataBulk bs :: rest => bs ++ takeData rest
  | _ => []

/-- Observer: the data payload of the first occurrence of command `c` in a
trace. -/
def dataPayload (c : Nat) : List Ev → List Nat
  | [] => []
  | Ev.cmd b :: rest => if b = c then takeData rest else dataPayload c rest
  | _ :: rest => dataPayload c rest

/-- A 10x10 all-white probe image whose dimensions match neither the panel
nor its 90°-rotation. -/
def badImg : Img := ⟨10, 10, fun _ _ => 255⟩

/-- A concrete 2x2 all-black probe bitmap. -/
def imgA : Img := ⟨2, 2, fun _ _ => 0⟩

/-- A concrete 2x2 probe bitmap differing from `imgA` at the origin. -/
def imgB : Img := ⟨2, 2, fun x y => if x = 0 ∧ y = 0 then 255 else 0⟩

/-- The events `Driver.displayPartial` emits before the bulk image write
(everything up to and including the RAM-write command 0x24). -/
def dpHead : List Ev :=
  Driver.digital_write Driver.RST_PIN 0 ++ Driver.delay_ms 1
  ++ Driver.digital_write Driver.RST_PIN 1
  ++ Driver.SetLut Driver.lut_partial_update
  ++ Driver.send_command 0x37
  ++ Driver.send_data 0x00 ++ Driver.send_data 0x00 ++ Driver.send_data 0x00
  ++ Driver.send_data 0x00 ++ Driver.send_data 0x00 ++ Driver.send_data 0x40
  ++ Driver.send_data 0x00 ++ Driver.send_data 0x00 ++ Driver.send_data 0x00
  ++ Driver.send_data 0x00
  ++ Driver.send_command 0x3C ++ Driver.send_data 0x80
  ++ Driver.send_command 0x22 ++ Driver.send_data 0xC0
  ++ Driver.send_command 0x20 ++ Driver.ReadBusy
  ++ Driver.SetWindow 0 0 (Driver.EPD_WIDTH - 1) (Driver.EPD_HEIGHT - 1)
  ++ Driver.SetCursor 0 0
  ++ Driver.send_command 0x24

/-- The events `Driver.displayPartial` emits after the bulk image write. -/
def dpTail : List Ev := Driver.TurnOnDisplayPart

theorem displayPartial_decomp (img : List Nat) :
    Driver.displayPartial img = dpHead ++ [Ev.dataBulk img] ++ dpTail := by
  simp only [Driver.displayPartial, dpHead, dpTail, Driver.send_data2,
    List.append_assoc]

/-- An event that is not a bulk write avoids a trace split around one bulk
write as soon as it avoids both surrounding segments. -/
theorem notMem_concat_bulk (e : Ev) (l1 l2 : List Ev) (bs : List Nat)
    (he : ∀ bs2 : List Nat, e ≠ Ev.dataBulk bs2)
    (h1 : e ∉ l1) (h2 : e ∉ l2) : e ∉ l1 ++ [Ev.dataBulk bs] ++ l2 := by
  intro h
  rcases List.mem_append.mp h with h3 | h3
  · rcases List.mem_append.mp h3 with h4 | h4
    · exact h1 h4
    · rcases List.mem_singleton.mp h4 with h5
      exact he bs h5
  · exact h2 h3

/-- Claim C1 counterexample: the banded rectangle's `x_end` is itself a
multiple of 8 (an exclusive-style bound), so `(x_end + 1) % 8 = 0` fails,
here on the bounding box (0, 0, 1, 0). -/
theorem C1_band_cex :
    PaperTTY.band (some (0, 0, 1, 0)) = some (0, 0, 8, 0) ∧ (8 + 1) % 8 ≠ 0 := by
  decide

/-- Claim C1 (amended): for every non-None bounding box with non-negative
integer coordinates, `band` yields an `x_start` that is a multiple of 8 and
an `x_end` that is a multiple of 8 (not `(x_end+1) % 8 = 0`), leaves both Y
coordinates unchanged, and contains the input (`x_start ≤ x0` and
`x1 ≤ x_end`); `band none = none`. -/
theorem C1_band_amended (x0 y0 x1 y1 : Nat) :
    PaperTTY.band none = none ∧
    ∃ xs xe, PaperTTY.band (some (x0, y0, x1, y1)) = some (xs, y0, xe, y1) ∧
      xs % 8 = 0 ∧ xe % 8 = 0 ∧ xs ≤ x0 ∧ x1 ≤ xe := by
  refine ⟨rfl, x0 / 8 * 8, (x1 + 7) / 8 * 8, rfl, Nat.mul_mod_left _ 8,
    Nat.mul_mod_left _ 8, Nat.div_mul_le_self x0 8, ?_⟩
  have h1 := Nat.div_add_mod (x1 + 7) 8
  have h2 : (x1 + 7) % 8 < 8 := Nat.mod_lt _ (by decide)
  omega

/-- Claim C2 counterexample: `SetCursor` (opcode 0x4E) transmits the raw
input masked to 8 bits, so at x = 8 the X-register byte is 8, not the
shifted value 1. -/
theorem C2_xreg_cex :
    dataPayload 0x4E (Driver.SetCursor 8 0) = [8] ∧ ((8 : Nat) >>> 3) % 256 = 1 ∧
    (8 : Nat) ≠ 1 := by
  decide

/-- Claim C2 (amended): the X bytes of `SetWindow` (opcode 0x44) and of
`set_memory_pointer` (opcode 0x4E, the draw path) are the input shifted
right 3 bits masked to 8 bits, but `SetCursor` (opcode 0x4E) transmits the
raw input masked to 8 bits with no shift. -/
theorem C2_xreg_amended (xs ys xe ye x y : Nat) (xi yi : Int) :
    dataPayload 0x44 (Driver.SetWindow xs ys xe ye)
      = [(xs >>> 3) % 256, (xe >>> 3) % 256] ∧
    dataPayload 0x4E (Driver.set_memory_pointer xi yi)
      = [Driver.pyByte (Int.fdiv xi 8)] ∧
    dataPayload 0x4E (Driver.SetCursor x y) = [x % 256] := by
  refine ⟨?_, ?_, ?_⟩ <;>
    simp [Driver.SetWindow, Driver.SetCursor, Driver.set_memory_pointer,
      Driver.send_command, Driver.send_data, Driver.ReadBusy, dataPayload, takeData]

/-- Claim C3 counterexample: a draw issued after `sleep()` still transmits
bus bytes — the driver keeps no state, so `draw` emits its activation
sequence (command 0x22 among others) unconditionally, and no error value
exists. -/
theorem C3_sleep_draw_cex :
    Driver.draw false 0 0 none ≠ [] ∧ Ev.cmd 0x22 ∈ Driver.draw false 0 0 none := by
  decide

/-- Claim C3 (amended): the driver tracks no initialization state and defines
no NotInitialized error; every `draw` call — in particular one following
`sleep()` — issues a non-empty bus write sequence containing the
display-update command 0x22. -/
theorem C3_draw_always_writes (pr : Bool) (x y : Int) (img : Option Img) :
    Ev.cmd 0x22 ∈ Driver.draw pr x y img ∧ Driver.draw pr x y img ≠ [] := by
  have hmem : Ev.cmd 0x22 ∈ Driver.display_frame := by decide
  have h : Ev.cmd 0x22 ∈ Driver.draw pr x y img := by
    unfold Driver.draw
    exact List.mem_append.mpr (Or.inl (List.mem_append.mpr (Or.inr hmem)))
  exact ⟨h, List.ne_nil_of_mem h⟩

/-- Claim C4 counterexample: on a mismatched 10x10 input, `getbuffer`
returns a buffer of 0x00 bytes — the all-black fill in this panel's
convention (white pixels pack to 0xFF) — not an all-white buffer. -/
theorem C4_getbuffer_cex :
    Driver.getbuffer badImg
      = List.replicate ((Driver.EPD_WIDTH / 8) * Driver.EPD_HEIGHT) 0x00 ∧
    (Driver.getbuffer badImg).head? = some 0x00 ∧ (0x00 : Nat) ≠ 0xFF := by
  refine ⟨rfl, rfl, by decide⟩

/-- Claim C4 (amended): for every input image whose dimensions match neither
the panel nor its 90°-rotation, `getbuffer` returns an all-0x00 (all-black)
blank buffer of `int(width/8) * height` bytes — equal to
`ceil(width/8) * height` because the panel width is a multiple of 8 — and
returns it normally rather than aborting. -/
theorem C4_getbuffer_amended (img : Img)
    (h1 : ¬(img.w = Driver.EPD_WIDTH ∧ img.h = Driver.EPD_HEIGHT))
    (h2 : ¬(img.w = Driver.EPD_HEIGHT ∧ img.h = Driver.EPD_WIDTH)) :
    Driver.getbuffer img
      = List.replicate ((Driver.EPD_WIDTH / 8) * Driver.EPD_HEIGHT) 0x00 ∧
    (Driver.EPD_WIDTH / 8) * Driver.EPD_HEIGHT
      = ((Driver.EPD_WIDTH + 7) / 8) * Driver.EPD_HEIGHT := by
  unfold Driver.getbuffer
  rw [if_neg h1, if_neg h2]
  exact ⟨rfl, by decide⟩

/-- Witness for C4: the hypotheses hold at the concrete 10x10 probe image and
the amended conclusion follows. -/
theorem C4_getbuffer_witness :
    (¬(badImg.w = Driver.EPD_WIDTH ∧ badImg.h = Driver.EPD_HEIGHT)) ∧
    (¬(badImg.w = Driver.EPD_HEIGHT ∧ badImg.h = Driver.EPD_WIDTH)) ∧
    (Driver.getbuffer badImg
        = List.replicate ((Driver.EPD_WIDTH / 8) * Driver.EPD_HEIGHT) 0x00 ∧
      (Driver.EPD_WIDTH / 8) * Driver.EPD_HEIGHT
        = ((Driver.EPD_WIDTH + 7) / 8) * Driver.EPD_HEIGHT) :=
  ⟨by decide, by decide, C4_getbuffer_amended badImg (by decide) (by decide)⟩

/-- Claim C7: `init` returns -1 and issues no bus traffic when the transport
cannot be acquired (`module_init` nonzero); otherwise it returns 0 after the
20ms/2ms/20ms reset pulse train, software reset (0x12) with busy waits,
driver-output control (0x01), data-entry mode (0x11), the full-panel window
and cursor, border waveform (0x3C 0x05), update control (0x21), and the Full
waveform table. -/
theorem C7_init_spec (r : Int) :
    (r ≠ 0 → Driver.init r = (-1, [])) ∧
    (Driver.init 0).1 = 0 ∧
    (∃ mid,
      (Driver.init 0).2 =
        Driver.digital_write Driver.RST_PIN 1 ++ Driver.delay_ms 20
        ++ Driver.digital_write Driver.RST_PIN 0 ++ Driver.delay_ms 2
        ++ Driver.digital_write Driver.RST_PIN 1 ++ Driver.delay_ms 20
        ++ Driver.ReadBusy
        ++ Driver.send_command 0x12 ++ Driver.ReadBusy
        ++ Driver.send_command 0x01 ++ Driver.send_data 0xF9
        ++ Driver.send_data 0x00 ++ Driver.send_data 0x00
        ++ Driver.send_command 0x11 ++ Driver.send_data 0x03
        ++ Driver.SetWindow 0 0 (Driver.EPD_WIDTH - 1) (Driver.EPD_HEIGHT - 1)
        ++ Driver.SetCursor 0 0
        ++ Driver.send_command 0x3C ++ Driver.send_data 0x05
        ++ Driver.send_command 0x21 ++ Driver.send_data 0x00 ++ Driver.send_data 0x80
        ++ mid
        ++ Driver.SetLut Driver.lut_full_update) := by
  refine ⟨fun hr => by simp [Driver.init, hr], rfl,
    ⟨Driver.send_command 0x18 ++ Driver.send_data 0x80 ++ Driver.ReadBusy, ?_⟩⟩
  simp only [Driver.init, Driver.reset, Driver.digital_write, Driver.delay_ms,
    Driver.send_command, Driver.send_data, Driver.ReadBusy, List.append_assoc]
  rfl

/-- Witness for C7: at the concrete nonzero transport failure code 1, `init`
returns -1 with an empty bus trace. -/
theorem C7_init_witness : (1 : Int) ≠ 0 ∧ Driver.init 1 = (-1, []) :=
  ⟨by decide, (C7_init_spec 1).1 (by decide)⟩

/-- Claim C8: `Clear(color)` writes exactly `height * ceil(width/8)` data
bytes, all equal to `color`, under the RAM-write command 0x24, then performs
a full refresh (0x22 with the full-quality byte 0xC7, 0x20, busy wait); two
consecutive `Clear` calls concatenate into two such independent full-refresh
passes. -/
theorem C8_Clear_spec (color : Nat) :
    dataPayload 0x24 (Driver.Clear color)
      = List.replicate (Driver.EPD_HEIGHT * ((Driver.EPD_WIDTH + 7) / 8)) color ∧
    (∃ pre, Driver.Clear color
      = pre ++ (Driver.send_command 0x22 ++ Driver.send_data 0xC7
          ++ Driver.send_command 0x20 ++ Driver.ReadBusy)) ∧
    (Driver.Clear 0xFF ++ Driver.Clear 0x00).count (Ev.cmd 0x24) = 2 ∧
    (Driver.Clear 0xFF ++ Driver.Clear 0x00).count (Ev.cmd 0x20) = 2 ∧
    (Driver.Clear 0xFF ++ Driver.Clear 0x00).count Ev.busyWait = 2 := by
  have hmod : Driver.EPD_WIDTH % 8 = 0 := by decide
  have hsize : Driver.EPD_HEIGHT * (Driver.EPD_WIDTH / 8)
      = Driver.EPD_HEIGHT * ((Driver.EPD_WIDTH + 7) / 8) := by decide
  refine ⟨?_, ⟨Driver.send_command 0x24
      ++ Driver.send_data2 (List.replicate
        (Driver.EPD_HEIGHT * (Driver.EPD_WIDTH / 8)) color), ?_⟩,
    by decide, by decide, by decide⟩
  · simp only [Driver.Clear, Driver.TurnOnDisplay, Driver.send_command,
      Driver.send_data, Driver.send_data2, Driver.ReadBusy, hmod, if_pos,
      List.cons_append, List.nil_append, dataPayload, takeData]
    simp [takeData, hsize]
  · simp [Driver.Clear, Driver.TurnOnDisplay, Driver.send_command, Driver.send_data,
      Driver.send_data2, Driver.ReadBusy, hmod, List.append_assoc]

/-- Claim C6: every `displayPartial` call performs, in order: the brief 1 ms
reset-pin toggle (low, 1 ms, high) with none of the 20 ms / 2 ms full-reset
pulses, programming of the Partial waveform table, the partial border
waveform byte (0x3C with 0x80), window and cursor setup, the bulk image
stream under the RAM-write command 0x24, and the quality-partial activation
(0x22 with 0x0F then 0x20) ending in a blocking busy wait. -/
theorem C6_displayPartial_spec (img : List Nat) :
    (∃ mid1 mid2,
      Driver.displayPartial img =
        Driver.digital_write Driver.RST_PIN 0 ++ Driver.delay_ms 1
        ++ Driver.digital_write Driver.RST_PIN 1
        ++ Driver.SetLut Driver.lut_partial_update
        ++ mid1
        ++ Driver.send_command 0x3C ++ Driver.send_data 0x80
        ++ mid2
        ++ Driver.SetWindow 0 0 (Driver.EPD_WIDTH - 1) (Driver.EPD_HEIGHT - 1)
        ++ Driver.SetCursor 0 0
        ++ Driver.send_command 0x24 ++ Driver.send_data2 img
        ++ (Driver.send_command 0x22 ++ Driver.send_data 0x0F
            ++ Driver.send_command 0x20 ++ Driver.ReadBusy)) ∧
    Ev.delayMs 20 ∉ Driver.displayPartial img ∧
    Ev.delayMs 2 ∉ Driver.displayPartial img := by
  refine ⟨⟨Driver.send_command 0x37 ++ Driver.send_data 0x00 ++ Driver.send_data 0x00
      ++ Driver.send_data 0x00 ++ Driver.send_data 0x00 ++ Driver.send_data 0x00
      ++ Driver.send_data 0x40 ++ Driver.send_data 0x00 ++ Driver.send_data 0x00
      ++ Driver.send_data 0x00 ++ Driver.send_data 0x00,
    Driver.send_command 0x22 ++ Driver.send_data 0xC0 ++ Driver.send_command 0x20
      ++ Driver.ReadBusy, ?_⟩, ?_, ?_⟩
  · simp [Driver.displayPartial, Driver.TurnOnDisplayPart, Driver.send_command,
      Driver.send_data, Driver.send_data2, Driver.ReadBusy, Driver.digital_write,
      Driver.delay_ms, List.append_assoc]
  · rw [displayPartial_decomp]
    exact notMem_concat_bulk _ _ _ _ (fun bs2 h => Ev.noConfusion h)
      (by decide) (by decide)
  · rw [displayPartial_decomp]
    exact notMem_concat_bulk _ _ _ _ (fun bs2 h => Ev.noConfusion h)
      (by decide) (by decide)

theorem filterMap_const_none {β γ : Type} (l : List β) :
    l.filterMap (fun _ => (none : Option γ)) = [] := by
  induction l with
  | nil => rfl
  | cons a t ih => simp [List.filterMap_cons, ih]

theorem diffPts_self (A : Img) : PaperTTY.diffPts A A = [] := by
  unfold PaperTTY.diffPts
  have h : ∀ x, (List.range A.h).filterMap
      (fun y => if A.px x y = A.px x y then none else some (x, y)) = [] := by
    intro x
    simp
  simp [h]

theorem diffPts_symm (A B : Img) (hw : A.w = B.w) (hh : A.h = B.h) :
    PaperTTY.diffPts A B = PaperTTY.diffPts B A := by
  unfold PaperTTY.diffPts
  rw [hw, hh]
  congr 1
  funext x
  congr 1
  funext y
  by_cases hpx : A.px x y = B.px x y
  · rw [if_pos hpx, if_pos hpx.symm]
  · rw [if_neg hpx, if_neg (fun h2 => hpx h2.symm)]

/-- Claim C5: the diff engine returns `None` on identical bitmaps, its
rectangle is symmetric in its two arguments on equal-dimension bitmaps, and
the partial-mode draw dispatch of `showtext` issues no draw call — an empty
bus trace — when the new image equals the previous one. -/
theorem C5_diff_spec (A B : Img) (hw : A.w = B.w) (hh : A.h = B.h) :
    PaperTTY.img_diff A A = none ∧
    PaperTTY.img_diff A B = PaperTTY.img_diff B A ∧
    PaperTTY.showtextDrawTrace true A (some A) = [] := by
  have hself : PaperTTY.img_diff A A = none := by
    unfold PaperTTY.img_diff
    rw [diffPts_self]
  refine ⟨hself, ?_, ?_⟩
  · unfold PaperTTY.img_diff
    rw [diffPts_symm A B hw hh]
  · simp [PaperTTY.showtextDrawTrace, hself, PaperTTY.band]

/-- Witness for C5: the dimension hypotheses hold at the concrete 2x2 probe
bitmaps and the conclusions follow. -/
theorem C5_diff_witness :
    imgA.w = imgB.w ∧ imgA.h = imgB.h ∧
    (PaperTTY.img_diff imgA imgA = none ∧
      PaperTTY.img_diff imgA imgB = PaperTTY.img_diff imgB imgA ∧
      PaperTTY.showtextDrawTrace true imgA (some imgA) = []) :=
  ⟨rfl, rfl, C5_diff_spec imgA imgB rfl rfl⟩

/-- Claim C9: for every text overlay, cursor, cursor style and combination of
the portrait / flipx / flipy flags, the bitmap produced by the `showtext`
pipeline has the panel's native dimensions (width 128, height 250) after all
rotation and flip transforms. -/
theorem C9_showtext_dims (white black fontW fontH : Nat)
    (style : Option PaperTTY.CursorStyle) (cursor : Option (Nat × Nat))
    (textPaint : Nat → Nat → Option Nat) (p fx fy : Bool) :
    (PaperTTY.showtextImage white black fontW fontH style cursor textPaint p fx fy).w
      = Driver.EPD_WIDTH ∧
    (PaperTTY.showtextImage white black fontW fontH style cursor textPaint p fx fy).h
      = Driver.EPD_HEIGHT := by
  rcases cursor with _ | c <;> rcases style with _ | (_ | _ | off) <;>
    cases p <;> cases fx <;> cases fy <;>
      simp [PaperTTY.showtextImage, PaperTTY.draw_block_cursor, Image.new,
        Img.drawOn, Img.rotate90, Img.flipLR, Img.flipTB, Img.logical_xor]

theorem pyRange_stop_le (start stop step : Nat) (h : stop ≤ start) :
    PaperTTY.pyRange start stop step = [] := by
  unfold PaperTTY.pyRange
  rw [dif_neg (by omega)]

theorem pyRange_shift (start stop k step : Nat) :
    PaperTTY.pyRange (start + k) (stop + k) step
      = (PaperTTY.pyRange start stop step).map (fun v => v + k) := by
  by_cases h : 0 < step ∧ start < stop
  · conv_lhs => rw [PaperTTY.pyRange]
    conv_rhs => rw [PaperTTY.pyRange]
    rw [dif_pos (⟨h.1, by omega⟩ : 0 < step ∧ start + k < stop + k), dif_pos h]
    simp only [List.map_cons]
    congr 1
    rw [show start + k + step = start + step + k from by omega]
    exact pyRange_shift (start + step) stop k step
  · conv_lhs => rw [PaperTTY.pyRange]
    conv_rhs => rw [PaperTTY.pyRange]
    rw [dif_neg (fun h2 => h ⟨h2.1, by omega⟩), dif_neg h]
    rfl
termination_by stop - start
decreasing_by omega

theorem split_nil {α : Type} (n : Nat) : PaperTTY.split ([] : List α) n = [] := by
  unfold PaperTTY.split
  rw [List.length_nil, pyRange_stop_le 0 0 n (Nat.le_refl 0)]
  rfl

theorem pyRange_from (stop k step : Nat) :
    PaperTTY.pyRange k (stop + k) step
      = (PaperTTY.pyRange 0 stop step).map (fun v => v + k) := by
  have h := pyRange_shift 0 stop k step
  rwa [Nat.zero_add] at h

theorem split_cons {α : Type} (s : List α) (n : Nat) (hs : s ≠ []) (hn : 0 < n) :
    PaperTTY.split s n = s.take n :: PaperTTY.split (s.drop n) n := by
  have hL : 0 < s.length := List.length_pos.mpr hs
  unfold PaperTTY.split
  conv_lhs => rw [PaperTTY.pyRange]
  rw [dif_pos ⟨hn, hL⟩]
  simp only [List.map_cons, List.drop_zero, Nat.zero_add, List.length_drop]
  congr 1
  by_cases hns : n ≤ s.length
  · conv_lhs => rw [show s.length = (s.length - n) + n from by omega]
    rw [pyRange_from (s.length - n) n n, List.map_map]
    congr 1
    funext b
    simp only [Function.comp]
    rw [List.drop_drop, Nat.add_comm n b]
  · rw [pyRange_stop_le n s.length n (by omega),
      pyRange_stop_le 0 (s.length - n) n (by omega)]
    rfl

theorem split_flatten {α : Type} (n : Nat) (hn : 0 < n) (s : List α) :
    (PaperTTY.split s n).flatten = s := by
  by_cases hs : s = []
  · subst hs
    rw [split_nil]
    rfl
  · rw [split_cons s n hs hn, List.flatten_cons,
      split_flatten n hn (s.drop n), List.take_append_drop]
termination_by s.length
decreasing_by
  have := List.length_pos.mpr hs
  simp only [List.length_drop]
  omega

theorem split_dropLast_length {α : Type} (n : Nat) (hn : 0 < n) (s : List α) :
    ∀ p ∈ (PaperTTY.split s n).dropLast, p.length = n := by
  by_cases hs : s = []
  · subst hs
    rw [split_nil]
    intro p hp
    simp at hp
  · rw [split_cons s n hs hn]
    cases hd : PaperTTY.split (s.drop n) n with
    | nil =>
      intro p hp
      simp at hp
    | cons b l =>
      intro p hp
      rw [List.dropLast_cons₂] at hp
      rcases List.mem_cons.mp hp with h | h
      · subst h
        have hdrop : s.drop n ≠ [] := by
          intro h0
          rw [h0, split_nil] at hd
          exact List.cons_ne_nil b l hd.symm
        have hlen : n < s.length := by
          by_contra hc
          exact hdrop (List.drop_eq_nil_of_le (by omega))
        simp [List.length_take]
        omega
      · have := split_dropLast_length n hn (s.drop n)
        rw [hd] at this
        exact this p h
termination_by s.length
decreasing_by
  have := List.length_pos.mpr hs
  simp only [List.length_drop]
  omega

theorem split_parts_ne_nil {α : Type} (n : Nat) (hn : 0 < n) (s : List α) :
    ∀ p ∈ PaperTTY.split s n, p ≠ [] := by
  by_cases hs : s = []
  · subst hs
    rw [split_nil]
    intro p hp
    simp at hp
  · rw [split_cons s n hs hn]
    intro p hp
    rcases List.mem_cons.mp hp with h | h
    · subst h
      intro h0
      rcases List.take_eq_nil_iff.mp h0 with h1 | h1
      · omega
      · exact hs h1
    · exact split_parts_ne_nil n hn (s.drop n) p h
termination_by s.length
decreasing_by
  have := List.length_pos.mpr hs
  simp only [List.length_drop]
  omega

/-- Claim C10: for every sequence and every chunk size n > 0, concatenating
the parts of `split` recovers the sequence, every part except possibly the
last has length exactly n, and the last part is non-empty whenever the
sequence is non-empty. -/
theorem C10_split_spec {α : Type} (s : List α) (n : Nat) (hn : 0 < n) :
    (PaperTTY.split s n).flatten = s ∧
    (∀ p ∈ (PaperTTY.split s n).dropLast, p.length = n) ∧
    (s ≠ [] → ∃ lastPart,
      (PaperTTY.split s n).getLast? = some lastPart ∧ lastPart ≠ []) := by
  refine ⟨split_flatten n hn s, split_dropLast_length n hn s, fun hs => ?_⟩
  have hne : PaperTTY.split s n ≠ [] := by
    rw [split_cons s n hs hn]
    exact List.cons_ne_nil _ _
  refine ⟨(PaperTTY.split s n).getLast hne, List.getLast?_eq_getLast _ hne, ?_⟩
  exact split_parts_ne_nil n hn s _ (List.getLast_mem hne)

/-- Witness for C10: the chunk-size hypothesis holds at n = 2 and the
conclusions follow for the concrete sequence [1, 2, 3]. -/
theorem C10_split_witness :
    0 < 2 ∧
    ((PaperTTY.split [1, 2, 3] 2).flatten = [1, 2, 3] ∧
      (∀ p ∈ (PaperTTY.split [1, 2, 3] 2).dropLast, p.length = 2) ∧
      (([1, 2, 3] : List Nat) ≠ [] → ∃ lastPart,
        (PaperTTY.split [1, 2, 3] 2).getLast? = some lastPart ∧ lastPart ≠ [])) :=
  ⟨by decide, C10_split_spec [1, 2, 3] 2 (by decide)⟩
